import Mathlib

/-!
Shallow embedding of `src/aws/iam/policy.go` from Moulick/cloud-objects.

The Go file wraps AWS IAM policy management calls. We model:
* `awsarn.ARN` (aws-sdk-go) as a structure of its five string fields, with
  its `String()` method and `Parse` function;
* Go errors as `GoError`: either an error implementing `awserr.Error`
  (carrying a code) or a plain error that does not;
* the IAM service interface `iamiface.IAMAPI` as a record of functions from
  request structs to `Except GoError` responses (the SDK convention that a
  call returns either a non-nil result or a non-nil error);
* each wrapper function as a Lean function that also returns the list of
  SDK calls it performed, in order (`List SDKCall`), so that call/no-call
  properties are statable;
* Go panics (`panic("Implement me")`, a failed `err.(awserr.Error)` type
  assertion, a nil-pointer dereference) as an explicit `Outcome.panicked`
  result instead of an ordinary return.
Pointer-receiver mutation of `PolicyInstance` is modelled by returning the
updated instance.
-/

/-- A Go `error` value: either one implementing the `awserr.Error`
interface (with an error code, as produced by the AWS SDK), a plain error
that does not implement `awserr.Error`, or the repository's own
`InstanceNotYetCreatedError`. -/
inductive GoError where
  | awsErr (code msg : String)
  | plain (msg : String)
  | instanceNotYetCreated (msg : String)
deriving DecidableEq, Repr

/-- Modelled from the spec: `aws.NewInstanceNotYetCreatedError` lives in the
`aws` package of this repository, which is not present under `src/`. The
spec describes only "a not-yet-created guard"; we model the constructor as
producing a distinguished error value carrying its message. -/
def NewInstanceNotYetCreatedError (msg : String) : GoError :=
  GoError.instanceNotYetCreated msg

/-- The outcome of running a Go function that returns `(T, error)`:
a non-nil result, a non-nil error, or a runtime panic. -/
inductive Outcome (α : Type) where
  | ok (val : α)
  | err (e : GoError)
  | panicked (msg : String)
deriving DecidableEq, Repr

/-- `aws/arn.ARN` from aws-sdk-go: the five string sections of an ARN
(Go field order: Partition, Service, Region, AccountID, Resource). -/
structure ARN where
  Partition : String
  Service : String
  Region : String
  AccountID : String
  Resource : String
deriving DecidableEq, Repr

/-- The Go zero value `awsarn.ARN{}`. -/
def emptyARN : ARN := ⟨"", "", "", "", ""⟩

/-- The `String()` method of `awsarn.ARN` from aws-sdk-go (named `render`
here to avoid clashing with the Lean `String` type): `"arn:" + Partition +
":" + Service + ":" + Region + ":" + AccountID + ":" + Resource`. -/
def ARN.render (a : ARN) : String :=
  "arn:" ++ a.Partition ++ ":" ++ a.Service ++ ":" ++ a.Region ++ ":" ++
    a.AccountID ++ ":" ++ a.Resource

/-- Split a character list at every occurrence of `sep`, like Go
`strings.Split` for a one-character separator (structural recursion so the
kernel can evaluate it). -/
def splitAll (sep : Char) : List Char → List (List Char)
  | [] => [[]]
  | c :: rest =>
    match splitAll sep rest with
    | [] => [[]]
    | g :: gs => if c = sep then [] :: g :: gs else (c :: g) :: gs

/-- Go `strings.SplitN(s, sep, n)` for `n > 0`, specialised to the
one-character separator used by `awsarn.Parse`: at most `n` substrings,
the last one being the unsplit remainder. -/
def splitN (s : String) (sep : Char) (n : Nat) : List String :=
  let parts := (splitAll sep s.data).map String.mk
  if parts.length ≤ n then parts
  else parts.take (n - 1) ++
    [String.intercalate (String.mk [sep]) (parts.drop (n - 1))]

/-- `awsarn.Parse` from aws-sdk-go: requires the `"arn:"` prefix, splits
into at most 6 sections on `":"`, and requires exactly 6 sections. -/
def ARN.parse (s : String) : Except GoError ARN :=
  if !("arn:".data.isPrefixOf s.data) then
    Except.error (GoError.plain "arn: invalid prefix")
  else
    let sections := splitN s ':' 6
    if h : sections.length = 6 then
      Except.ok ⟨sections.get ⟨1, by omega⟩, sections.get ⟨2, by omega⟩,
        sections.get ⟨3, by omega⟩, sections.get ⟨4, by omega⟩,
        sections.get ⟨5, by omega⟩⟩
    else
      Except.error (GoError.plain "arn: not enough sections")

/-- `awssdk.BoolValue`: dereference a `*bool`, `nil` reading as `false`. -/
def BoolValue : Option Bool → Bool
  | none => false
  | some b => b

/-- `awssdk.StringValue`: dereference a `*string`, `nil` reading as `""`. -/
def StringValue : Option String → String
  | none => ""
  | some s => s

/-- `iam.ErrCodeNoSuchEntityException` ("NoSuchEntity"). -/
def ErrCodeNoSuchEntityException : String := "NoSuchEntity"

/-- Equality of Go `(value, error)` results is decidable. -/
instance {ε α : Type} [DecidableEq ε] [DecidableEq α] :
    DecidableEq (Except ε α) := fun a b =>
  match a, b with
  | Except.ok x, Except.ok y =>
    if h : x = y then isTrue (by rw [h]) else isFalse (by simp [h])
  | Except.ok _, Except.error _ => isFalse (by simp)
  | Except.error _, Except.ok _ => isFalse (by simp)
  | Except.error x, Except.error y =>
    if h : x = y then isTrue (by rw [h]) else isFalse (by simp [h])

/-- Modelled from the spec: the repository's `PolicyDocument` type lives in
a file not present under `src/`; the spec says only that the methods
"marshal a policy document to JSON". We model a policy document abstractly
by the outcome of `json.Marshal` on it — either the JSON string produced or
the marshalling error. -/
structure PolicyDocument where
  marshal : Except GoError String
deriving DecidableEq, Repr

/-- `iam.Policy` (the fields this code reads; pointers as `Option`). -/
structure Policy where
  Arn : Option String
  DefaultVersionId : Option String
deriving DecidableEq, Repr

/-- `iam.PolicyVersion` (the fields this code reads). -/
structure PolicyVersion where
  IsDefaultVersion : Option Bool
  VersionId : Option String
deriving DecidableEq, Repr

/-- `iam.CreatePolicyInput`; all three fields are set from non-nil
`awssdk.String` pointers, so we model them as plain strings. -/
structure CreatePolicyInput where
  PolicyDocument : String
  Description : String
  PolicyName : String
deriving DecidableEq, Repr

/-- `iam.CreatePolicyOutput`; `Policy` is a pointer, possibly nil. -/
structure CreatePolicyOutput where
  Policy : Option Policy
deriving DecidableEq, Repr

/-- `iam.CreatePolicyVersionInput`. -/
structure CreatePolicyVersionInput where
  PolicyDocument : String
  PolicyArn : String
  SetAsDefault : Bool
deriving DecidableEq, Repr

/-- `iam.CreatePolicyVersionOutput` (no field is read by this code). -/
structure CreatePolicyVersionOutput where
deriving DecidableEq, Repr

/-- `iam.ListPolicyVersionsInput`. -/
structure ListPolicyVersionsInput where
  PolicyArn : String
deriving DecidableEq, Repr

/-- `iam.ListPolicyVersionsOutput` (the field this code reads). -/
structure ListPolicyVersionsOutput where
  Versions : List PolicyVersion
deriving DecidableEq, Repr

/-- `iam.DeletePolicyVersionInput`; `VersionId` is a `*string` passed
through from the listed version, so it stays an `Option`. -/
structure DeletePolicyVersionInput where
  PolicyArn : String
  VersionId : Option String
deriving DecidableEq, Repr

/-- `iam.DeletePolicyVersionOutput`. -/
structure DeletePolicyVersionOutput where
deriving DecidableEq, Repr

/-- `iam.DeletePolicyInput`. -/
structure DeletePolicyInput where
  PolicyArn : String
deriving DecidableEq, Repr

/-- `iam.DeletePolicyOutput`. -/
structure DeletePolicyOutput where
deriving DecidableEq, Repr

/-- `iam.GetPolicyInput`. -/
structure GetPolicyInput where
  PolicyArn : String
deriving DecidableEq, Repr

/-- `iam.GetPolicyOutput`; `Policy` is a pointer, possibly nil. -/
structure GetPolicyOutput where
  Policy : Option Policy
deriving DecidableEq, Repr

/-- `iam.GetPolicyVersionInput`; both fields are `*string` copied from a
`Policy`, so they stay `Option`. -/
structure GetPolicyVersionInput where
  PolicyArn : Option String
  VersionId : Option String
deriving DecidableEq, Repr

/-- `iam.GetPolicyVersionOutput`. -/
structure GetPolicyVersionOutput where
deriving DecidableEq, Repr

/-- `iamiface.IAMAPI`, restricted to the operations this file calls: each
SDK operation is a function from its input struct to either a (non-nil)
output or a (non-nil) error. -/
structure IAMAPI where
  CreatePolicy : CreatePolicyInput → Except GoError CreatePolicyOutput
  CreatePolicyVersion :
    CreatePolicyVersionInput → Except GoError CreatePolicyVersionOutput
  ListPolicyVersions :
    ListPolicyVersionsInput → Except GoError ListPolicyVersionsOutput
  DeletePolicyVersion :
    DeletePolicyVersionInput → Except GoError DeletePolicyVersionOutput
  DeletePolicy : DeletePolicyInput → Except GoError DeletePolicyOutput
  GetPolicy : GetPolicyInput → Except GoError GetPolicyOutput
  GetPolicyVersion :
    GetPolicyVersionInput → Except GoError GetPolicyVersionOutput

/-- One AWS SDK call, recorded with the exact input it was given. -/
inductive SDKCall where
  | CreatePolicy (i : CreatePolicyInput)
  | CreatePolicyVersion (i : CreatePolicyVersionInput)
  | ListPolicyVersions (i : ListPolicyVersionsInput)
  | DeletePolicyVersion (i : DeletePolicyVersionInput)
  | DeletePolicy (i : DeletePolicyInput)
  | GetPolicy (i : GetPolicyInput)
  | GetPolicyVersion (i : GetPolicyVersionInput)
deriving DecidableEq, Repr

/-- `createPolicy` (policy.go lines 16-32): marshal the document, return
the marshalling error if any; otherwise call `CreatePolicy` with the JSON
string, description and name, and pass through its result or error. -/
def createPolicy (svc : IAMAPI) (polName polDesc : String)
    (pd : PolicyDocument) : Outcome CreatePolicyOutput × List SDKCall :=
  match pd.marshal with
  | Except.error e => (Outcome.err e, [])
  | Except.ok b =>
    let input : CreatePolicyInput :=
      { PolicyDocument := b, Description := polDesc, PolicyName := polName }
    match svc.CreatePolicy input with
    | Except.error e => (Outcome.err e, [SDKCall.CreatePolicy input])
    | Except.ok result => (Outcome.ok result, [SDKCall.CreatePolicy input])

/-- `updatePolicy` (policy.go lines 34-50): marshal the document, return
the marshalling error if any; otherwise call `CreatePolicyVersion` with the
JSON string, the ARN string and `SetAsDefault = true`, and pass through its
result or error. -/
def updatePolicy (svc : IAMAPI) (policyArn : ARN) (pd : PolicyDocument) :
    Outcome CreatePolicyVersionOutput × List SDKCall :=
  match pd.marshal with
  | Except.error e => (Outcome.err e, [])
  | Except.ok b =>
    let input : CreatePolicyVersionInput :=
      { PolicyDocument := b, PolicyArn := policyArn.render,
        SetAsDefault := true }
    match svc.CreatePolicyVersion input with
    | Except.error e => (Outcome.err e, [SDKCall.CreatePolicyVersion input])
    | Except.ok result =>
      (Outcome.ok result, [SDKCall.CreatePolicyVersion input])

/-- The `for` loop of `deletePolicy` (policy.go lines 62-72): walk the
listed versions in order and call `DeletePolicyVersion` for each one whose
`IsDefaultVersion` reads false, stopping at the first error. -/
def deleteVersionsLoop (svc : IAMAPI) (arnStr : String) :
    List PolicyVersion → Outcome Unit × List SDKCall
  | [] => (Outcome.ok (), [])
  | version :: rest =>
    if !(BoolValue version.IsDefaultVersion) then
      let input : DeletePolicyVersionInput :=
        { PolicyArn := arnStr, VersionId := version.VersionId }
      match svc.DeletePolicyVersion input with
      | Except.error e =>
        (Outcome.err e, [SDKCall.DeletePolicyVersion input])
      | Except.ok _ =>
        let r := deleteVersionsLoop svc arnStr rest
        (r.1, SDKCall.DeletePolicyVersion input :: r.2)
    else
      deleteVersionsLoop svc arnStr rest

/-- `deletePolicy` (policy.go lines 52-85): list the policy versions
(returning any error), delete every non-default version (returning any
error), then call `DeletePolicy`. On a `DeletePolicy` error the code
asserts `err.(awserr.Error)` without a comma-ok check — a panic if the
error does not implement `awserr.Error` — and ignores the error (returning
the nil result with a nil error) when its code is
`ErrCodeNoSuchEntityException`. -/
def deletePolicy (svc : IAMAPI) (arn : ARN) :
    Outcome (Option DeletePolicyOutput) × List SDKCall :=
  let listInput : ListPolicyVersionsInput := { PolicyArn := arn.render }
  match svc.ListPolicyVersions listInput with
  | Except.error e => (Outcome.err e, [SDKCall.ListPolicyVersions listInput])
  | Except.ok listPolicyOut =>
    let loopRes := deleteVersionsLoop svc arn.render listPolicyOut.Versions
    match loopRes.1 with
    | Outcome.err e =>
      (Outcome.err e, SDKCall.ListPolicyVersions listInput :: loopRes.2)
    | Outcome.panicked m =>
      (Outcome.panicked m, SDKCall.ListPolicyVersions listInput :: loopRes.2)
    | Outcome.ok _ =>
      let dInput : DeletePolicyInput := { PolicyArn := arn.render }
      let trace :=
        SDKCall.ListPolicyVersions listInput :: loopRes.2 ++
          [SDKCall.DeletePolicy dInput]
      match svc.DeletePolicy dInput with
      | Except.ok res => (Outcome.ok (some res), trace)
      | Except.error e =>
        match e with
        | GoError.awsErr code _ =>
          if code ≠ ErrCodeNoSuchEntityException then (Outcome.err e, trace)
          else (Outcome.ok none, trace)
        | _ =>
          (Outcome.panicked
            "interface conversion: error does not implement awserr.Error",
            trace)

/-- `getPolicy` (policy.go lines 87-98): call `GetPolicy` with the ARN
string and pass through its result or error. -/
def getPolicy (svc : IAMAPI) (arn : ARN) :
    Outcome GetPolicyOutput × List SDKCall :=
  let input : GetPolicyInput := { PolicyArn := arn.render }
  match svc.GetPolicy input with
  | Except.error e => (Outcome.err e, [SDKCall.GetPolicy input])
  | Except.ok result => (Outcome.ok result, [SDKCall.GetPolicy input])

/-- `getPolicyVersion` (policy.go lines 100-113): call `GetPolicyVersion`
with the policy's `Arn` and `DefaultVersionId` pointers, passing through
the result or error. Dereferencing `po.Policy` panics when it is nil. -/
def getPolicyVersion (svc : IAMAPI) (po : GetPolicyOutput) :
    Outcome GetPolicyVersionOutput × List SDKCall :=
  match po.Policy with
  | none =>
    (Outcome.panicked
      "runtime error: invalid memory address or nil pointer dereference", [])
  | some pol =>
    let input : GetPolicyVersionInput :=
      { PolicyArn := pol.Arn, VersionId := pol.DefaultVersionId }
    match svc.GetPolicyVersion input with
    | Except.error e => (Outcome.err e, [SDKCall.GetPolicyVersion input])
    | Except.ok result => (Outcome.ok result, [SDKCall.GetPolicyVersion input])

/-- `PolicyInstance` (policy.go lines 115-120); the unexported `arn` field
is the Go zero value `awsarn.ARN{}` until `Create` sets it. -/
structure PolicyInstance where
  Name : String
  Description : String
  PolicyDocument : PolicyDocument
  arn : ARN
deriving DecidableEq, Repr

/-- `NewPolicyInstance` (policy.go lines 122-124): `arn` is left at the Go
zero value. -/
def NewPolicyInstance (name description : String)
    (policyDoc : PolicyDocument) : PolicyInstance :=
  { Name := name, Description := description, PolicyDocument := policyDoc,
    arn := emptyARN }

/-- `NewExistingPolicyInstance` (policy.go lines 126-133). -/
def NewExistingPolicyInstance (name description : String)
    (policyDoc : PolicyDocument) (arn : ARN) : PolicyInstance :=
  { Name := name, Description := description, PolicyDocument := policyDoc,
    arn := arn }

/-- `PolicyInstance.IsCreated` (policy.go lines 211-213): compare the
stored ARN's `String()` with the zero ARN's `String()`; the `svc` argument
is unused and no SDK call is made (empty trace). -/
def PolicyInstance.IsCreated (p : PolicyInstance) (_svc : IAMAPI) :
    Bool × List SDKCall :=
  (p.arn.render != emptyARN.render, [])

/-- `PolicyInstance.Create` (policy.go lines 163-175): run `createPolicy`;
on error return it with the instance unchanged; otherwise parse the
returned policy's `Arn` (dereferencing `out.Policy`, a nil-pointer panic
when nil), return a parse error with the instance unchanged, and on success
store the parsed ARN in `p.arn`. -/
def PolicyInstance.Create (p : PolicyInstance) (svc : IAMAPI) :
    Outcome Unit × PolicyInstance × List SDKCall :=
  match createPolicy svc p.Name p.Description p.PolicyDocument with
  | (Outcome.err e, t) => (Outcome.err e, p, t)
  | (Outcome.panicked m, t) => (Outcome.panicked m, p, t)
  | (Outcome.ok out, t) =>
    match out.Policy with
    | none =>
      (Outcome.panicked
        "runtime error: invalid memory address or nil pointer dereference",
        p, t)
    | some pol =>
      match ARN.parse (StringValue pol.Arn) with
      | Except.error e => (Outcome.err e, p, t)
      | Except.ok newarn => (Outcome.ok (), { p with arn := newarn }, t)

/-- `PolicyInstance.Read` (policy.go lines 177-179): `panic("Implement
me")` — no SDK call, no state change, no normal return. -/
def PolicyInstance.Read (p : PolicyInstance) (_svc : IAMAPI) :
    Outcome Unit × PolicyInstance × List SDKCall :=
  (Outcome.panicked "Implement me", p, [])

/-- `PolicyInstance.Update` (policy.go lines 182-192): guard on
`IsCreated`, returning `InstanceNotYetCreatedError` naming the policy when
it fails; otherwise run `updatePolicy` on the stored ARN and pass through
its error. -/
def PolicyInstance.Update (p : PolicyInstance) (svc : IAMAPI) :
    Outcome Unit × PolicyInstance × List SDKCall :=
  if !(p.IsCreated svc).1 then
    (Outcome.err (NewInstanceNotYetCreatedError
      ("Policy \x27" ++ p.Name ++ "\x27 not yet created")), p, [])
  else
    match updatePolicy svc p.arn p.PolicyDocument with
    | (Outcome.err e, t) => (Outcome.err e, p, t)
    | (Outcome.panicked m, t) => (Outcome.panicked m, p, t)
    | (Outcome.ok _, t) => (Outcome.ok (), p, t)

/-- `PolicyInstance.Delete` (policy.go lines 195-205): guard on
`IsCreated`, returning `InstanceNotYetCreatedError` naming the policy when
it fails; otherwise run `deletePolicy` on the stored ARN and pass through
its error. -/
def PolicyInstance.Delete (p : PolicyInstance) (svc : IAMAPI) :
    Outcome Unit × PolicyInstance × List SDKCall :=
  if !(p.IsCreated svc).1 then
    (Outcome.err (NewInstanceNotYetCreatedError
      ("Policy \x27" ++ p.Name ++ "\x27 not yet created")), p, [])
  else
    match deletePolicy svc p.arn with
    | (Outcome.err e, t) => (Outcome.err e, p, t)
    | (Outcome.panicked m, t) => (Outcome.panicked m, p, t)
    | (Outcome.ok _, t) => (Outcome.ok (), p, t)

/-- `PolicyInstance.ARN` (policy.go lines 207-209): return the stored `arn`
field; no SDK call is made (empty trace). -/
def PolicyInstance.ARN (p : PolicyInstance) : ARN × List SDKCall :=
  (p.arn, [])

/-! ## Helper lemmas and concrete fixtures -/

/-- A string of length zero is the empty string. -/
theorem string_eq_empty_of_length (s : String) (h : s.length = 0) : s = "" := by
  cases s with
  | mk data =>
    simp [String.length] at h
    exact congrArg String.mk h

/-- An ARN renders to the same string as the Go zero value `awsarn.ARN{}`
exactly when it is the zero value: `"arn:::::"` leaves no room for any
non-empty section. -/
theorem render_eq_empty_iff (a : ARN) :
    a.render = emptyARN.render ↔ a = emptyARN := by
  constructor
  · intro h
    have hlen : a.render.length = 8 := by rw [h]; rfl
    simp only [ARN.render, String.length_append] at hlen
    have ha : "arn:".length = 4 := rfl
    have hc : ":".length = 1 := rfl
    rw [ha, hc] at hlen
    obtain ⟨P, S, R, A, Res⟩ := a
    simp only at hlen
    have hP : P = "" := string_eq_empty_of_length _ (by omega)
    have hS : S = "" := string_eq_empty_of_length _ (by omega)
    have hR : R = "" := string_eq_empty_of_length _ (by omega)
    have hA : A = "" := string_eq_empty_of_length _ (by omega)
    have hRes : Res = "" := string_eq_empty_of_length _ (by omega)
    rw [hP, hS, hR, hA, hRes]
    rfl
  · intro h; rw [h]

/-- The `IsCreated` guard reads true exactly when the stored ARN is not the
zero value. -/
theorem isCreated_iff_arn_ne_empty (p : PolicyInstance) (svc : IAMAPI) :
    (p.IsCreated svc).1 = true ↔ p.arn ≠ emptyARN := by
  simp only [PolicyInstance.IsCreated, bne_iff_ne, ne_eq]
  exact not_congr (render_eq_empty_iff p.arn)

/-- A concrete policy document whose marshalling succeeds. -/
def sampleDoc : PolicyDocument := ⟨Except.ok "sample-policy-json"⟩

/-- A concrete ARN string for fixtures. -/
def sampleArnStr : String := "arn:aws:iam::123456789012:policy/sample"

/-- The parse of `sampleArnStr`. -/
def sampleArn : ARN := ⟨"aws", "iam", "", "123456789012", "policy/sample"⟩

/-- Concrete policy versions: an explicit non-default, the default, and one
with a nil `IsDefaultVersion` (which `BoolValue` reads as non-default). -/
def versionV1 : PolicyVersion := ⟨some false, some "v1"⟩

/-- The default version fixture. -/
def versionV2 : PolicyVersion := ⟨some true, some "v2"⟩

/-- A version fixture with nil `IsDefaultVersion`. -/
def versionV3 : PolicyVersion := ⟨none, some "v3"⟩

/-- A concrete service on which every operation succeeds. -/
def okSvc : IAMAPI :=
  ⟨fun _ => Except.ok ⟨some ⟨some sampleArnStr, some "v2"⟩⟩,
   fun _ => Except.ok ⟨⟩,
   fun _ => Except.ok ⟨[versionV1, versionV2, versionV3]⟩,
   fun _ => Except.ok ⟨⟩,
   fun _ => Except.ok ⟨⟩,
   fun _ => Except.ok ⟨some ⟨some sampleArnStr, some "v2"⟩⟩,
   fun _ => Except.ok ⟨⟩⟩

/-- A concrete instance whose ARN is set (as if already created). -/
def samplePolicy : PolicyInstance := ⟨"sample", "a sample policy", sampleDoc, sampleArn⟩

/-- A concrete instance whose ARN is still the Go zero value. -/
def freshPolicy : PolicyInstance := ⟨"fresh", "a fresh policy", sampleDoc, emptyARN⟩

/-! ## Claims -/

/-- C5: for every `PolicyInstance` and IAM service, `IsCreated` returns
true if and only if the stored ARN differs from the zero-value ARN — the
"already created" decision is made purely from the existing ARN. -/
theorem c5_isCreated_checks_arn (p : PolicyInstance) (svc : IAMAPI) :
    (p.IsCreated svc).1 = true ↔ p.arn ≠ emptyARN :=
  isCreated_iff_arn_ne_empty p svc

/-- C10: `IsCreated` is independent of the IAM service argument and makes
no SDK call, and `ARN()` returns the stored `arn` field with no SDK call. -/
theorem c10_isCreated_pure (p : PolicyInstance) (svc1 svc2 : IAMAPI) :
    p.IsCreated svc1 = p.IsCreated svc2 ∧ (p.IsCreated svc1).2 = [] ∧
    p.ARN = (p.arn, []) :=
  ⟨rfl, rfl, rfl⟩

/-- C1 counterexample: on a concrete created instance and the all-ok
service, `Read` does not invoke the SDK read call and does not return the
SDK result or an error — it panics with "Implement me", having made no SDK
call at all (empty trace). -/
theorem c1_read_counterexample :
    PolicyInstance.Read samplePolicy okSvc =
      (Outcome.panicked "Implement me", samplePolicy, []) := rfl

/-- C1 (amended): `Create`, `Update` and `Delete` invoke the corresponding
AWS SDK method (sending the JSON-marshalled policy document where one is
sent) and return normally with the SDK result or its error, and `ARN` and
`IsCreated` make no SDK call; `Read`, however, is unimplemented: it makes
no SDK call and panics with "Implement me". -/
theorem c1_methods_map_to_sdk (p : PolicyInstance) (svc : IAMAPI)
    (j : String) (hm : p.PolicyDocument.marshal = Except.ok j) :
    p.Read svc = (Outcome.panicked "Implement me", p, []) ∧
    (p.Create svc).2.2 = [SDKCall.CreatePolicy ⟨j, p.Description, p.Name⟩] ∧
    (∀ e, svc.CreatePolicy ⟨j, p.Description, p.Name⟩ = Except.error e →
      (p.Create svc).1 = Outcome.err e) ∧
    ((p.IsCreated svc).1 = true →
      (p.Update svc).2.2 =
        [SDKCall.CreatePolicyVersion ⟨j, p.arn.render, true⟩] ∧
      (∀ e, svc.CreatePolicyVersion ⟨j, p.arn.render, true⟩ =
          Except.error e → (p.Update svc).1 = Outcome.err e) ∧
      (∀ o, svc.CreatePolicyVersion ⟨j, p.arn.render, true⟩ =
          Except.ok o → (p.Update svc).1 = Outcome.ok ())) ∧
    ((p.IsCreated svc).1 = true →
      ∀ lv, svc.ListPolicyVersions ⟨p.arn.render⟩ = Except.ok lv →
      (deleteVersionsLoop svc p.arn.render lv.Versions).1 = Outcome.ok () →
      SDKCall.DeletePolicy ⟨p.arn.render⟩ ∈ (p.Delete svc).2.2 ∧
      (∀ o, svc.DeletePolicy ⟨p.arn.render⟩ = Except.ok o →
        (p.Delete svc).1 = Outcome.ok ())) ∧
    (p.IsCreated svc).2 = [] ∧ p.ARN.2 = [] := by
  refine ⟨rfl, ?_, ?_, ?_, ?_, rfl, rfl⟩
  · simp only [PolicyInstance.Create, createPolicy, hm]
    cases hsvc : svc.CreatePolicy ⟨j, p.Description, p.Name⟩ with
    | error e => simp [hsvc]
    | ok out =>
      cases hout : out.Policy with
      | none => simp [hsvc, hout]
      | some pol =>
        cases hparse : ARN.parse (StringValue pol.Arn) <;>
          simp [hsvc, hout, hparse]
  · intro e hsvc
    simp [PolicyInstance.Create, createPolicy, hm, hsvc]
  · intro hc
    simp only [PolicyInstance.Update, hc, Bool.not_true, Bool.false_eq_true,
      if_false, updatePolicy, hm]
    cases hsvc : svc.CreatePolicyVersion ⟨j, p.arn.render, true⟩ with
    | error e => simp [hsvc]
    | ok o => simp [hsvc]
  · intro hc lv hlv hloop
    simp only [PolicyInstance.Delete, hc, Bool.not_true, Bool.false_eq_true,
      if_false, deletePolicy, hlv]
    constructor
    · cases hdp : svc.DeletePolicy ⟨p.arn.render⟩ with
      | ok o => simp [hloop, hdp]
      | error e =>
        cases e with
        | awsErr code msg =>
          by_cases hcode : code = ErrCodeNoSuchEntityException <;>
            simp [hloop, hdp, hcode]
        | plain msg => simp [hloop, hdp]
        | instanceNotYetCreated msg => simp [hloop, hdp]
    · intro o hdp
      simp [hloop, hdp]

/-- C1 amended-theorem witness at a concrete instance and service. -/
theorem c1_methods_map_to_sdk_witness :
    samplePolicy.Read okSvc =
      (Outcome.panicked "Implement me", samplePolicy, []) ∧
    (samplePolicy.Create okSvc).2.2 =
      [SDKCall.CreatePolicy
        ⟨"sample-policy-json", "a sample policy", "sample"⟩] := by
  have h := c1_methods_map_to_sdk samplePolicy okSvc "sample-policy-json" rfl
  exact ⟨h.1, h.2.1⟩

/-- When every `DeletePolicyVersion` call on a non-default version
succeeds, the version-deletion loop succeeds and its trace is exactly one
`DeletePolicyVersion` call per non-default version, in listing order. -/
theorem deleteVersionsLoop_ok (svc : IAMAPI) (arnStr : String) :
    ∀ vs : List PolicyVersion,
    (∀ v ∈ vs, BoolValue v.IsDefaultVersion = false →
      ∃ o, svc.DeletePolicyVersion ⟨arnStr, v.VersionId⟩ = Except.ok o) →
    deleteVersionsLoop svc arnStr vs =
      (Outcome.ok (),
       (vs.filter (fun v => !(BoolValue v.IsDefaultVersion))).map
         (fun v => SDKCall.DeletePolicyVersion ⟨arnStr, v.VersionId⟩))
  | [], _ => rfl
  | v :: rest, h => by
    have hrest := deleteVersionsLoop_ok svc arnStr rest
      (fun w hw => h w (List.mem_cons_of_mem v hw))
    cases hd : BoolValue v.IsDefaultVersion with
    | true => simp [deleteVersionsLoop, hd, hrest]
    | false =>
      obtain ⟨o, ho⟩ := h v (List.mem_cons_self v rest) hd
      simp [deleteVersionsLoop, hd, ho, hrest]

/-- The version-deletion loop never panics. -/
theorem deleteVersionsLoop_no_panic (svc : IAMAPI) (arnStr : String) :
    ∀ (vs : List PolicyVersion) (m : String),
    (deleteVersionsLoop svc arnStr vs).1 ≠ Outcome.panicked m
  | [], m => by simp [deleteVersionsLoop]
  | v :: rest, m => by
    have hrest := deleteVersionsLoop_no_panic svc arnStr rest m
    cases hd : BoolValue v.IsDefaultVersion with
    | true => simpa [deleteVersionsLoop, hd] using hrest
    | false =>
      cases ho : svc.DeletePolicyVersion ⟨arnStr, v.VersionId⟩ with
      | error e => simp [deleteVersionsLoop, hd, ho]
      | ok o => simpa [deleteVersionsLoop, hd, ho] using hrest

/-- An error outcome of the version-deletion loop is exactly the error of
some `DeletePolicyVersion` call on a listed version. -/
theorem deleteVersionsLoop_err (svc : IAMAPI) (arnStr : String) :
    ∀ (vs : List PolicyVersion) (e : GoError),
    (deleteVersionsLoop svc arnStr vs).1 = Outcome.err e →
    ∃ v ∈ vs, svc.DeletePolicyVersion ⟨arnStr, v.VersionId⟩ =
      Except.error e
  | [], e => by simp [deleteVersionsLoop]
  | v :: rest, e => by
    intro h
    cases hd : BoolValue v.IsDefaultVersion with
    | true =>
      simp only [deleteVersionsLoop, hd, Bool.not_true] at h
      obtain ⟨w, hw, hwe⟩ :=
        deleteVersionsLoop_err svc arnStr rest e (by simpa using h)
      exact ⟨w, List.mem_cons_of_mem v hw, hwe⟩
    | false =>
      cases ho : svc.DeletePolicyVersion ⟨arnStr, v.VersionId⟩ with
      | error e2 =>
        simp only [deleteVersionsLoop, hd, Bool.not_false, if_true, ho] at h
        cases h
        exact ⟨v, List.mem_cons_self v rest, ho⟩
      | ok o =>
        simp only [deleteVersionsLoop, hd, Bool.not_false, if_true, ho] at h
        obtain ⟨w, hw, hwe⟩ :=
          deleteVersionsLoop_err svc arnStr rest e (by simpa using h)
        exact ⟨w, List.mem_cons_of_mem v hw, hwe⟩

/-- C2: `deletePolicy` first lists the policy's versions, then calls
`DeletePolicyVersion` exactly once per listed version whose
`IsDefaultVersion` reads false (and for no default version), in listing
order, and only after all those calls does it call `DeletePolicy`. -/
theorem c2_delete_strips_nondefault_versions (svc : IAMAPI) (arn : ARN)
    (lv : ListPolicyVersionsOutput)
    (hl : svc.ListPolicyVersions ⟨arn.render⟩ = Except.ok lv)
    (hdv : ∀ v ∈ lv.Versions, BoolValue v.IsDefaultVersion = false →
      ∃ o, svc.DeletePolicyVersion ⟨arn.render, v.VersionId⟩ =
        Except.ok o) :
    (deletePolicy svc arn).2 =
      SDKCall.ListPolicyVersions ⟨arn.render⟩ ::
      (lv.Versions.filter (fun v => !(BoolValue v.IsDefaultVersion))).map
        (fun v => SDKCall.DeletePolicyVersion ⟨arn.render, v.VersionId⟩) ++
      [SDKCall.DeletePolicy ⟨arn.render⟩] := by
  have hloop := deleteVersionsLoop_ok svc arn.render lv.Versions hdv
  simp only [deletePolicy, hl, hloop]
  cases hdp : svc.DeletePolicy ⟨arn.render⟩ with
  | ok o => simp [hdp]
  | error e =>
    cases e with
    | awsErr code msg =>
      by_cases hcode : code = ErrCodeNoSuchEntityException <;>
        simp [hdp, hcode]
    | plain msg => simp [hdp]
    | instanceNotYetCreated msg => simp [hdp]

/-- C2 witness: on the all-ok service listing a non-default, a default and
a nil-flag version, the trace is the list call, the two non-default
version deletions in order, then the policy deletion. -/
theorem c2_delete_strips_nondefault_versions_witness :
    (deletePolicy okSvc sampleArn).2 =
      SDKCall.ListPolicyVersions ⟨sampleArn.render⟩ ::
      ([versionV1, versionV2, versionV3].filter
        (fun v => !(BoolValue v.IsDefaultVersion))).map
        (fun v => SDKCall.DeletePolicyVersion ⟨sampleArn.render, v.VersionId⟩) ++
      [SDKCall.DeletePolicy ⟨sampleArn.render⟩] :=
  c2_delete_strips_nondefault_versions okSvc sampleArn
    ⟨[versionV1, versionV2, versionV3]⟩ rfl
    (fun _v _hv _hd => ⟨⟨⟩, rfl⟩)

/-- C3: with the zero-value ARN stored, `Update` and `Delete` return the
`InstanceNotYetCreatedError` naming the policy and make no SDK call; with a
non-zero ARN the guard passes and the SDK is invoked (`Update` calls
`CreatePolicyVersion`; `Delete` runs `deletePolicy`, whose first SDK call
is `ListPolicyVersions`). -/
theorem c3_not_yet_created_guard (p : PolicyInstance) (svc : IAMAPI)
    (j : String) (hm : p.PolicyDocument.marshal = Except.ok j) :
    (p.arn = emptyARN →
      p.Update svc = (Outcome.err (NewInstanceNotYetCreatedError
        ("Policy \x27" ++ p.Name ++ "\x27 not yet created")), p, []) ∧
      p.Delete svc = (Outcome.err (NewInstanceNotYetCreatedError
        ("Policy \x27" ++ p.Name ++ "\x27 not yet created")), p, [])) ∧
    (p.arn ≠ emptyARN →
      (p.Update svc).2.2 =
        [SDKCall.CreatePolicyVersion ⟨j, p.arn.render, true⟩] ∧
      (p.Delete svc).2.2.head? =
        some (SDKCall.ListPolicyVersions ⟨p.arn.render⟩)) := by
  constructor
  · intro h
    have hg : (p.IsCreated svc).1 = false := by
      simp [PolicyInstance.IsCreated, h]
    constructor
    · simp [PolicyInstance.Update, hg]
    · simp [PolicyInstance.Delete, hg]
  · intro h
    have hg : (p.IsCreated svc).1 = true :=
      (isCreated_iff_arn_ne_empty p svc).mpr h
    constructor
    · simp only [PolicyInstance.Update, hg, Bool.not_true,
        Bool.false_eq_true, if_false, updatePolicy, hm]
      cases hsvc : svc.CreatePolicyVersion ⟨j, p.arn.render, true⟩ with
      | error e => simp [hsvc]
      | ok o => simp [hsvc]
    · simp only [PolicyInstance.Delete, hg, Bool.not_true,
        Bool.false_eq_true, if_false, deletePolicy]
      cases hls : svc.ListPolicyVersions ⟨p.arn.render⟩ with
      | error e => simp [hls]
      | ok lv =>
        rcases hloop : (deleteVersionsLoop svc p.arn.render lv.Versions).1
          with _ | _ | _
        · cases hdp : svc.DeletePolicy ⟨p.arn.render⟩ with
          | ok o => simp [hls, hloop, hdp]
          | error e =>
            cases e with
            | awsErr code msg =>
              by_cases hcode : code = ErrCodeNoSuchEntityException <;>
                simp [hls, hloop, hdp, hcode]
            | plain msg => simp [hls, hloop, hdp]
            | instanceNotYetCreated msg => simp [hls, hloop, hdp]
        · simp [hls, hloop]
        · simp [hls, hloop]

/-- C3 witness: the guard fires on the fresh (zero-ARN) instance, and on
the created instance `Update` performs exactly the `CreatePolicyVersion`
call. -/
theorem c3_not_yet_created_guard_witness :
    freshPolicy.Update okSvc =
      (Outcome.err (NewInstanceNotYetCreatedError
        "Policy \x27fresh\x27 not yet created"), freshPolicy, []) ∧
    (samplePolicy.Update okSvc).2.2 =
      [SDKCall.CreatePolicyVersion
        ⟨"sample-policy-json", sampleArn.render, true⟩] := by
  constructor
  · exact ((c3_not_yet_created_guard freshPolicy okSvc
      "sample-policy-json" rfl).1 rfl).1
  · exact ((c3_not_yet_created_guard samplePolicy okSvc
      "sample-policy-json" rfl).2 (by decide)).1

/-- A service whose `ListPolicyVersions` fails with the no-such-entity
error code; every other operation succeeds. -/
def nseListSvc : IAMAPI :=
  ⟨fun _ => Except.ok ⟨some ⟨some sampleArnStr, some "v2"⟩⟩,
   fun _ => Except.ok ⟨⟩,
   fun _ => Except.error
     (GoError.awsErr ErrCodeNoSuchEntityException "policy not found"),
   fun _ => Except.ok ⟨⟩,
   fun _ => Except.ok ⟨⟩,
   fun _ => Except.ok ⟨some ⟨some sampleArnStr, some "v2"⟩⟩,
   fun _ => Except.ok ⟨⟩⟩

/-- A service whose final `DeletePolicy` fails with the no-such-entity
error code; listing returns only the default version. -/
def nseDeleteSvc : IAMAPI :=
  ⟨fun _ => Except.ok ⟨some ⟨some sampleArnStr, some "v2"⟩⟩,
   fun _ => Except.ok ⟨⟩,
   fun _ => Except.ok ⟨[versionV2]⟩,
   fun _ => Except.ok ⟨⟩,
   fun _ => Except.error
     (GoError.awsErr ErrCodeNoSuchEntityException "policy already gone"),
   fun _ => Except.ok ⟨some ⟨some sampleArnStr, some "v2"⟩⟩,
   fun _ => Except.ok ⟨⟩⟩

/-- C4 counterexample: a no-such-entity error arising on
`ListPolicyVersions` is NOT ignored — `deletePolicy` returns it as an
error instead of returning a nil error. -/
theorem c4_list_nse_counterexample :
    (deletePolicy nseListSvc sampleArn).1 =
      Outcome.err
        (GoError.awsErr ErrCodeNoSuchEntityException "policy not found") :=
  rfl

/-- C4 (amended): only the final `DeletePolicy` call's no-such-entity
error is ignored (the call returns a nil result and a nil error); errors
from `ListPolicyVersions` and from the version-deletion loop — including
no-such-entity errors — are returned to the caller unchanged. -/
theorem c4_nse_ignored_only_on_final_delete (svc : IAMAPI) (arn : ARN) :
    (∀ e, svc.ListPolicyVersions ⟨arn.render⟩ = Except.error e →
      (deletePolicy svc arn).1 = Outcome.err e) ∧
    (∀ lv, svc.ListPolicyVersions ⟨arn.render⟩ = Except.ok lv →
      (∀ e, (deleteVersionsLoop svc arn.render lv.Versions).1 =
          Outcome.err e → (deletePolicy svc arn).1 = Outcome.err e) ∧
      ((deleteVersionsLoop svc arn.render lv.Versions).1 = Outcome.ok () →
        ∀ m, svc.DeletePolicy ⟨arn.render⟩ =
            Except.error (GoError.awsErr ErrCodeNoSuchEntityException m) →
          (deletePolicy svc arn).1 = Outcome.ok none)) := by
  constructor
  · intro e he
    simp [deletePolicy, he]
  · intro lv hlv
    constructor
    · intro e he
      simp [deletePolicy, hlv, he]
    · intro hloop m hdp
      simp [deletePolicy, hlv, hloop, hdp]

/-- C4 amended-theorem witness: on the concrete service whose final
`DeletePolicy` reports no-such-entity, `deletePolicy` returns a nil result
with a nil error. -/
theorem c4_nse_ignored_only_on_final_delete_witness :
    (deletePolicy nseDeleteSvc sampleArn).1 = Outcome.ok none :=
  ((c4_nse_ignored_only_on_final_delete nseDeleteSvc sampleArn).2
    ⟨[versionV2]⟩ rfl).2 rfl "policy already gone" rfl

/-- A service whose final `DeletePolicy` fails with an error that does not
implement `awserr.Error`; listing succeeds with no versions. -/
def plainDeleteSvc : IAMAPI :=
  ⟨fun _ => Except.ok ⟨some ⟨some sampleArnStr, some "v2"⟩⟩,
   fun _ => Except.ok ⟨⟩,
   fun _ => Except.ok ⟨[]⟩,
   fun _ => Except.ok ⟨⟩,
   fun _ => Except.error (GoError.plain "connection reset"),
   fun _ => Except.ok ⟨some ⟨some sampleArnStr, some "v2"⟩⟩,
   fun _ => Except.ok ⟨⟩⟩

/-- A service on which every operation fails with a (distinct) AWS error. -/
def failSvc : IAMAPI :=
  ⟨fun _ => Except.error (GoError.awsErr "LimitExceeded" "create failed"),
   fun _ => Except.error (GoError.awsErr "LimitExceeded" "version failed"),
   fun _ => Except.error (GoError.awsErr "ServiceFailure" "list failed"),
   fun _ => Except.error (GoError.awsErr "ServiceFailure" "dpv failed"),
   fun _ => Except.error (GoError.awsErr "DeleteConflict" "delete failed"),
   fun _ => Except.error (GoError.awsErr "ServiceFailure" "get failed"),
   fun _ => Except.error (GoError.awsErr "ServiceFailure" "getv failed")⟩

/-- C6 counterexample: on a concrete input the `DeletePolicy` SDK call
fails (with an error that is not the no-such-entity case), yet
`deletePolicy` does not return that error value — it panics on the
unchecked `err.(awserr.Error)` assertion. -/
theorem c6_plain_error_counterexample :
    (deletePolicy plainDeleteSvc sampleArn).1 =
      Outcome.panicked
        "interface conversion: error does not implement awserr.Error" :=
  rfl

/-- C6 (amended): every SDK error is returned exactly as produced —
unchanged and unwrapped — by `createPolicy`, `updatePolicy`, `getPolicy`,
`getPolicyVersion`, and by `deletePolicy` for `ListPolicyVersions` and
`DeletePolicyVersion` failures; for `DeletePolicy` failures the error is
returned unchanged when it implements `awserr.Error` with a code other
than no-such-entity, the no-such-entity code is ignored, and an error not
implementing `awserr.Error` makes `deletePolicy` panic instead of
returning it. -/
theorem c6_error_passthrough :
    (∀ (svc : IAMAPI) (n d : String) (pd : PolicyDocument) (j : String)
        (e : GoError), pd.marshal = Except.ok j →
      svc.CreatePolicy ⟨j, d, n⟩ = Except.error e →
      (createPolicy svc n d pd).1 = Outcome.err e) ∧
    (∀ (svc : IAMAPI) (a : ARN) (pd : PolicyDocument) (j : String)
        (e : GoError), pd.marshal = Except.ok j →
      svc.CreatePolicyVersion ⟨j, a.render, true⟩ = Except.error e →
      (updatePolicy svc a pd).1 = Outcome.err e) ∧
    (∀ (svc : IAMAPI) (a : ARN) (e : GoError),
      svc.GetPolicy ⟨a.render⟩ = Except.error e →
      (getPolicy svc a).1 = Outcome.err e) ∧
    (∀ (svc : IAMAPI) (po : GetPolicyOutput) (pol : Policy) (e : GoError),
      po.Policy = some pol →
      svc.GetPolicyVersion ⟨pol.Arn, pol.DefaultVersionId⟩ =
        Except.error e →
      (getPolicyVersion svc po).1 = Outcome.err e) ∧
    (∀ (svc : IAMAPI) (a : ARN) (e : GoError),
      svc.ListPolicyVersions ⟨a.render⟩ = Except.error e →
      (deletePolicy svc a).1 = Outcome.err e) ∧
    (∀ (svc : IAMAPI) (a : ARN) (lv : ListPolicyVersionsOutput)
        (e : GoError),
      svc.ListPolicyVersions ⟨a.render⟩ = Except.ok lv →
      (deleteVersionsLoop svc a.render lv.Versions).1 = Outcome.err e →
      (deletePolicy svc a).1 = Outcome.err e ∧
      ∃ v ∈ lv.Versions,
        svc.DeletePolicyVersion ⟨a.render, v.VersionId⟩ =
          Except.error e) ∧
    (∀ (svc : IAMAPI) (a : ARN) (lv : ListPolicyVersionsOutput)
        (code m : String),
      svc.ListPolicyVersions ⟨a.render⟩ = Except.ok lv →
      (deleteVersionsLoop svc a.render lv.Versions).1 = Outcome.ok () →
      svc.DeletePolicy ⟨a.render⟩ =
        Except.error (GoError.awsErr code m) →
      code ≠ ErrCodeNoSuchEntityException →
      (deletePolicy svc a).1 = Outcome.err (GoError.awsErr code m)) ∧
    (∀ (svc : IAMAPI) (a : ARN) (lv : ListPolicyVersionsOutput)
        (m : String),
      svc.ListPolicyVersions ⟨a.render⟩ = Except.ok lv →
      (deleteVersionsLoop svc a.render lv.Versions).1 = Outcome.ok () →
      svc.DeletePolicy ⟨a.render⟩ = Except.error (GoError.plain m) →
      (deletePolicy svc a).1 = Outcome.panicked
        "interface conversion: error does not implement awserr.Error") := by
  refine ⟨?_, ?_, ?_, ?_, ?_, ?_, ?_, ?_⟩
  · intro svc n d pd j e hm he
    simp [createPolicy, hm, he]
  · intro svc a pd j e hm he
    simp [updatePolicy, hm, he]
  · intro svc a e he
    simp [getPolicy, he]
  · intro svc po pol e hpol he
    simp [getPolicyVersion, hpol, he]
  · intro svc a e he
    simp [deletePolicy, he]
  · intro svc a lv e hlv hloop
    exact ⟨by simp [deletePolicy, hlv, hloop],
      deleteVersionsLoop_err svc a.render lv.Versions e hloop⟩
  · intro svc a lv code m hlv hloop hdp hcode
    simp [deletePolicy, hlv, hloop, hdp, hcode]
  · intro svc a lv m hlv hloop hdp
    simp [deletePolicy, hlv, hloop, hdp]

/-- C6 amended-theorem witness: the failing service's `CreatePolicy` error
is returned unchanged by `createPolicy`, and its `ListPolicyVersions`
error unchanged by `deletePolicy`. -/
theorem c6_error_passthrough_witness :
    (createPolicy failSvc "sample" "a sample policy" sampleDoc).1 =
      Outcome.err (GoError.awsErr "LimitExceeded" "create failed") ∧
    (deletePolicy failSvc sampleArn).1 =
      Outcome.err (GoError.awsErr "ServiceFailure" "list failed") :=
  ⟨c6_error_passthrough.1 failSvc "sample" "a sample policy" sampleDoc
     "sample-policy-json" _ rfl rfl,
   c6_error_passthrough.2.2.2.2.1 failSvc sampleArn _ rfl⟩

/-- A concrete policy document whose marshalling fails. -/
def badDoc : PolicyDocument :=
  ⟨Except.error (GoError.plain "json: unsupported type")⟩

/-- C7: `createPolicy` and `updatePolicy` send exactly the marshalled JSON
string as the `PolicyDocument` field of the `CreatePolicy` /
`CreatePolicyVersion` input, together with the given name and description
(create) or the ARN string with `SetAsDefault` true (update); when
marshalling fails no SDK call is made and the marshalling error is
returned. -/
theorem c7_marshal_to_sdk_input (svc : IAMAPI) (n d : String) (a : ARN)
    (pd : PolicyDocument) :
    (∀ j, pd.marshal = Except.ok j →
      (createPolicy svc n d pd).2 = [SDKCall.CreatePolicy ⟨j, d, n⟩] ∧
      (updatePolicy svc a pd).2 =
        [SDKCall.CreatePolicyVersion ⟨j, a.render, true⟩]) ∧
    (∀ e, pd.marshal = Except.error e →
      createPolicy svc n d pd = (Outcome.err e, []) ∧
      updatePolicy svc a pd = (Outcome.err e, [])) := by
  constructor
  · intro j hm
    constructor
    · simp only [createPolicy, hm]
      cases hsvc : svc.CreatePolicy ⟨j, d, n⟩ with
      | error e => simp [hsvc]
      | ok o => simp [hsvc]
    · simp only [updatePolicy, hm]
      cases hsvc : svc.CreatePolicyVersion ⟨j, a.render, true⟩ with
      | error e => simp [hsvc]
      | ok o => simp [hsvc]
  · intro e hm
    exact ⟨by simp [createPolicy, hm], by simp [updatePolicy, hm]⟩

/-- C7 witness: the sample document's JSON reaches the SDK input verbatim,
and the bad document's marshalling error is returned with no SDK call. -/
theorem c7_marshal_to_sdk_input_witness :
    (createPolicy okSvc "sample" "a sample policy" sampleDoc).2 =
      [SDKCall.CreatePolicy
        ⟨"sample-policy-json", "a sample policy", "sample"⟩] ∧
    createPolicy okSvc "sample" "a sample policy" badDoc =
      (Outcome.err (GoError.plain "json: unsupported type"), []) :=
  ⟨((c7_marshal_to_sdk_input okSvc "sample" "a sample policy" sampleArn
      sampleDoc).1 "sample-policy-json" rfl).1,
   ((c7_marshal_to_sdk_input okSvc "sample" "a sample policy" sampleArn
      badDoc).2 (GoError.plain "json: unsupported type") rfl).1⟩

/-- C8: a failed `Create` leaves the instance unchanged; a successful
`Create` stores exactly the ARN parsed from the `CreatePolicy` output; and
`Name`, `Description` and `PolicyDocument` are never modified by `Create`,
`Update` or `Delete` (the latter two leave the whole instance unchanged). -/
theorem c8_create_only_sets_arn (p : PolicyInstance) (svc : IAMAPI) :
    (∀ e, (p.Create svc).1 = Outcome.err e → (p.Create svc).2.1 = p) ∧
    ((p.Create svc).1 = Outcome.ok () →
      ∃ out pol,
        (createPolicy svc p.Name p.Description p.PolicyDocument).1 =
          Outcome.ok out ∧ out.Policy = some pol ∧
        ARN.parse (StringValue pol.Arn) =
          Except.ok (p.Create svc).2.1.arn) ∧
    (p.Create svc).2.1.Name = p.Name ∧
    (p.Create svc).2.1.Description = p.Description ∧
    (p.Create svc).2.1.PolicyDocument = p.PolicyDocument ∧
    (p.Update svc).2.1 = p ∧
    (p.Delete svc).2.1 = p := by
  have hupd : (p.Update svc).2.1 = p := by
    cases hg : (p.IsCreated svc).1 with
    | false => simp [PolicyInstance.Update, hg]
    | true =>
      rcases hu : updatePolicy svc p.arn p.PolicyDocument with ⟨o, t⟩
      cases o <;> simp [PolicyInstance.Update, hg, hu]
  have hdel : (p.Delete svc).2.1 = p := by
    cases hg : (p.IsCreated svc).1 with
    | false => simp [PolicyInstance.Delete, hg]
    | true =>
      rcases hd : deletePolicy svc p.arn with ⟨o, t⟩
      cases o <;> simp [PolicyInstance.Delete, hg, hd]
  rcases hcp : createPolicy svc p.Name p.Description p.PolicyDocument
    with ⟨o, t⟩
  cases o with
  | err e0 =>
    refine ⟨?_, ?_, ?_, ?_, ?_, hupd, hdel⟩ <;>
      simp [PolicyInstance.Create, hcp]
  | panicked m =>
    refine ⟨?_, ?_, ?_, ?_, ?_, hupd, hdel⟩ <;>
      simp [PolicyInstance.Create, hcp]
  | ok out =>
    cases hpol : out.Policy with
    | none =>
      refine ⟨?_, ?_, ?_, ?_, ?_, hupd, hdel⟩ <;>
        simp [PolicyInstance.Create, hcp, hpol]
    | some pol =>
      cases hparse : ARN.parse (StringValue pol.Arn) with
      | error e1 =>
        refine ⟨?_, ?_, ?_, ?_, ?_, hupd, hdel⟩ <;>
          simp [PolicyInstance.Create, hcp, hpol, hparse]
      | ok newarn =>
        refine ⟨?_, ?_, ?_, ?_, ?_, hupd, hdel⟩
        · intro e he
          simp [PolicyInstance.Create, hcp, hpol, hparse] at he
        · intro _
          refine ⟨out, pol, by simp [hcp], hpol, ?_⟩
          simp [PolicyInstance.Create, hcp, hpol, hparse]
        · simp [PolicyInstance.Create, hcp, hpol, hparse]
        · simp [PolicyInstance.Create, hcp, hpol, hparse]
        · simp [PolicyInstance.Create, hcp, hpol, hparse]

/-- C8 witness: a successful concrete `Create` stores the ARN parsed from
the service's `CreatePolicy` output, and `Update` leaves the instance
unchanged. -/
theorem c8_create_only_sets_arn_witness :
    (∃ out pol,
      (createPolicy okSvc "fresh" "a fresh policy" sampleDoc).1 =
        Outcome.ok out ∧ out.Policy = some pol ∧
      ARN.parse (StringValue pol.Arn) =
        Except.ok (freshPolicy.Create okSvc).2.1.arn) ∧
    (freshPolicy.Update okSvc).2.1 = freshPolicy :=
  ⟨(c8_create_only_sets_arn freshPolicy okSvc).2.1 (by decide),
   (c8_create_only_sets_arn freshPolicy okSvc).2.2.2.2.2.1⟩

/-- A service whose final `DeletePolicy` fails with a plain (non-awserr)
error; listing returns only the default version. -/
def eofDeleteSvc : IAMAPI :=
  ⟨fun _ => Except.ok ⟨some ⟨some sampleArnStr, some "v2"⟩⟩,
   fun _ => Except.ok ⟨⟩,
   fun _ => Except.ok ⟨[versionV2]⟩,
   fun _ => Except.ok ⟨⟩,
   fun _ => Except.error (GoError.plain "unexpected EOF"),
   fun _ => Except.ok ⟨some ⟨some sampleArnStr, some "v2"⟩⟩,
   fun _ => Except.ok ⟨⟩⟩

/-- C9: when the `DeletePolicy` SDK call fails with an error that does not
implement `awserr.Error`, `deletePolicy` panics on the unchecked
`err.(awserr.Error)` assertion instead of returning the error; it cannot
panic when every `DeletePolicy` error implements `awserr.Error`. -/
theorem c9_delete_unchecked_assertion (svc : IAMAPI) (arn : ARN) :
    (∀ lv m, svc.ListPolicyVersions ⟨arn.render⟩ = Except.ok lv →
      (deleteVersionsLoop svc arn.render lv.Versions).1 = Outcome.ok () →
      svc.DeletePolicy ⟨arn.render⟩ = Except.error (GoError.plain m) →
      (deletePolicy svc arn).1 = Outcome.panicked
        "interface conversion: error does not implement awserr.Error") ∧
    ((∀ e, svc.DeletePolicy ⟨arn.render⟩ = Except.error e →
        ∃ code m, e = GoError.awsErr code m) →
      ∀ m, (deletePolicy svc arn).1 ≠ Outcome.panicked m) := by
  constructor
  · intro lv m hlv hloop hdp
    simp [deletePolicy, hlv, hloop, hdp]
  · intro hawserr m
    cases hls : svc.ListPolicyVersions ⟨arn.render⟩ with
    | error e => simp [deletePolicy, hls]
    | ok lv =>
      rcases hloop : (deleteVersionsLoop svc arn.render lv.Versions).1
        with _ | _ | m2
      · cases hdp : svc.DeletePolicy ⟨arn.render⟩ with
        | ok o => simp [deletePolicy, hls, hloop, hdp]
        | error e =>
          obtain ⟨code, msg, hcode⟩ := hawserr e hdp
          subst hcode
          by_cases hns : code = ErrCodeNoSuchEntityException <;>
            simp [deletePolicy, hls, hloop, hdp, hns]
      · simp [deletePolicy, hls, hloop]
      · exact absurd hloop
          (deleteVersionsLoop_no_panic svc arn.render lv.Versions m2)

/-- C9 witness: on the concrete service whose `DeletePolicy` fails with a
plain error, `deletePolicy` panics. -/
theorem c9_delete_unchecked_assertion_witness :
    (deletePolicy eofDeleteSvc sampleArn).1 = Outcome.panicked
      "interface conversion: error does not implement awserr.Error" :=
  (c9_delete_unchecked_assertion eofDeleteSvc sampleArn).1
    ⟨[versionV2]⟩ "unexpected EOF" rfl rfl rfl
